import Mathlib

/-!
# Shallow embedding of the LimePPSDO VCTCXO-tamer firmware

This file embeds the calibration engine of `src/firmware/main.c` and
`src/firmware/vctcxo_tamer.c` in Lean 4 and settles the specification
claims about it.

Modelling conventions:

* Machine integers are modelled with `Nat`/`Int`.  A store into a
  `uint16_t` l-value is reduction modulo `2^16` (`u16`), a store into a
  `uint8_t` is reduction modulo `2^8`; signed `int32_t` arithmetic is
  modelled exactly over `Int` (the firmware stays far from the `int32`
  boundaries in normal operation, and no claim hinges on signed wrap).
* The C `float` arithmetic (the calibration `slope`) is modelled exactly
  over `ℚ`; `lroundf` (round half away from zero) is `lroundQ`.
* Hardware is split into an input side (register values read, supplied as
  explicit arguments) and an output side (a `List HwWrite` log of the
  register writes an operation performs, in program order).
* The two process-global variables of `vctcxo_tamer.c`
  (`vctcxo_tamer_ctrl_reg`, `vctcxo_trim_dac_value`) form `DriverState`;
  every driver operation maps a `DriverState` to a new one plus a write
  log.
-/

/-- Conversion of an integer to `uint16_t` (C conversion to an unsigned
type: reduction modulo 2^16). -/
def u16 (z : ℤ) : ℕ := (z % 65536).toNat

/-- The C `lroundf`: round to nearest, halfway cases away from zero. -/
def lroundQ (q : ℚ) : ℤ :=
  if q < 0 then -⌊-q + 1/2⌋ else ⌊q + 1/2⌋

/-- Modelled from the spec: `CONFIG_DAC_MAX` comes from the SoC build
(`generated/soc.h`, not under `src/`); the spec's example scenarios fix
`DacMax = 65535`, which is also `main.c`'s fallback when the macro is
undefined. -/
def CONFIG_DAC_MAX : ℕ := 0xFFFF

/-- `VCTCXO_DEFAULT_DAC_VALUE` from `main.c` line 31. -/
def VCTCXO_DEFAULT_DAC_VALUE : ℕ := 0x77FA

/-- Modelled from the spec: control-register bit masks are declared in
`vctcxo_tamer.h`, which is not under `src/`.  Spec §6: bit 0 = counter
reset. -/
def VT_CTRL_RESET : ℕ := 0x01

/-- Modelled from the spec: bit 1 of the control register = interrupt
enable (spec §6; `vctcxo_tamer.h` not under `src/`). -/
def VT_CTRL_IRQ_EN : ℕ := 0x02

/-- Modelled from the spec: bit 2 of the control register = interrupt
clear, a self-clearing pulse (spec §6; `vctcxo_tamer.h` not under
`src/`). -/
def VT_CTRL_IRQ_CLR : ℕ := 0x04

/-- Modelled from the spec: bits 6–7 of the control register = tune mode
(spec §6; `vctcxo_tamer.h` not under `src/`). -/
def VT_CTRL_TUNE_MODE : ℕ := 0xC0

/-- Modelled from the spec: status-register flag for the short (1 s)
averaging window (`vctcxo_tamer.h` not under `src/`; spec §6 gives one
bit per window, in short/medium/long order). -/
def VT_STAT_ERR_1S : ℕ := 0x01

/-- Modelled from the spec: status-register flag for the medium (10 s)
averaging window. -/
def VT_STAT_ERR_10S : ℕ := 0x02

/-- Modelled from the spec: status-register flag for the long (100 s)
averaging window. -/
def VT_STAT_ERR_100S : ℕ := 0x04

/-- Modelled from the spec: tune-mode `VCTCXO_TAMER_DISABLED` = 0
(spec §6; the enum lives in `vctcxo_tamer.h`, not under `src/`). -/
def VCTCXO_TAMER_DISABLED : ℕ := 0

/-- Modelled from the spec: tune-mode `VCTCXO_TAMER_1_PPS` = 1 (spec §6). -/
def VCTCXO_TAMER_1_PPS : ℕ := 1

/-- Modelled from the spec: tune-mode `VCTCXO_TAMER_10_MHZ` = 2 (spec §6). -/
def VCTCXO_TAMER_10_MHZ : ℕ := 2

/-- One byte written to a tamer peripheral register.  The registers are
identified symbolically (their numeric addresses live in
`vctcxo_tamer.h`, outside `src/`; the claims only depend on which
register is hit). -/
inductive HwWrite where
  /-- a write of `data` to the control register (`VT_CTRL_ADDR`) -/
  | ctrl (data : ℕ)
  /-- a write of `data` to the state register (`VT_STATE_ADDR`) -/
  | stateReg (data : ℕ)
  /-- a write of `data` to the DAC low-byte register (`VT_DAC_TUNNED_VAL_ADDR0`) -/
  | dacLo (data : ℕ)
  /-- a write of `data` to the DAC high-byte register (`VT_DAC_TUNNED_VAL_ADDR1`) -/
  | dacHi (data : ℕ)
deriving DecidableEq, Repr

/-- The two process-global variables of `vctcxo_tamer.c`: the cached
control register byte and the cached trim-DAC code. -/
structure DriverState where
  vctcxo_tamer_ctrl_reg : ℕ
  vctcxo_trim_dac_value : ℕ
deriving DecidableEq, Repr

/-- `vctcxo_tamer_reset_counters` (`vctcxo_tamer.c` lines 45–54): set or
clear the reset bit in the cached control byte, then write the full
cached byte to the control register. -/
def vctcxo_tamer_reset_counters (s : DriverState) (reset : Bool) :
    DriverState × List HwWrite :=
  let r := if reset then s.vctcxo_tamer_ctrl_reg ||| VT_CTRL_RESET
           else s.vctcxo_tamer_ctrl_reg &&& (255 ^^^ VT_CTRL_RESET)
  ({ s with vctcxo_tamer_ctrl_reg := r }, [HwWrite.ctrl r])

/-- `vctcxo_tamer_enable_isr` (`vctcxo_tamer.c` lines 57–66): set or
clear the interrupt-enable bit in the cached control byte, then write the
full cached byte. -/
def vctcxo_tamer_enable_isr (s : DriverState) (enable : Bool) :
    DriverState × List HwWrite :=
  let r := if enable then s.vctcxo_tamer_ctrl_reg ||| VT_CTRL_IRQ_EN
           else s.vctcxo_tamer_ctrl_reg &&& (255 ^^^ VT_CTRL_IRQ_EN)
  ({ s with vctcxo_tamer_ctrl_reg := r }, [HwWrite.ctrl r])

/-- `vctcxo_tamer_clear_isr` (`vctcxo_tamer.c` lines 69–72): write the
cached control byte with the interrupt-clear bit OR-ed in, without
touching the cache itself. -/
def vctcxo_tamer_clear_isr (s : DriverState) : DriverState × List HwWrite :=
  (s, [HwWrite.ctrl (s.vctcxo_tamer_ctrl_reg ||| VT_CTRL_IRQ_CLR)])

/-- `vctcxo_trim_dac_write` (`vctcxo_tamer.c` lines 130–143): cache the
code, then write its low byte and high byte to the two DAC registers. -/
def vctcxo_trim_dac_write (s : DriverState) (val : ℕ) :
    DriverState × List HwWrite :=
  ({ s with vctcxo_trim_dac_value := val },
   [HwWrite.dacLo (val &&& 0x00FF), HwWrite.dacHi ((val &&& 0xFF00) >>> 8)])

/-- `vctcxo_tamer_set_tune_mode` (`vctcxo_tamer.c` lines 75–114).  The
mode argument is the underlying integer of the `vctcxo_tamer_mode` enum.
An unrecognised mode returns at the first `switch`'s `default:` with no
state change and no hardware write. -/
def vctcxo_tamer_set_tune_mode (s : DriverState) (mode : ℕ) :
    DriverState × List HwWrite :=
  if mode = VCTCXO_TAMER_DISABLED ∨ mode = VCTCXO_TAMER_1_PPS ∨
      mode = VCTCXO_TAMER_10_MHZ then
    let (s1, w1) := vctcxo_tamer_enable_isr s false
    let r2 := ((s1.vctcxo_tamer_ctrl_reg &&& (255 ^^^ VT_CTRL_TUNE_MODE)) |||
               ((mode % 256) <<< 6)) % 256
    let s2 : DriverState := { s1 with vctcxo_tamer_ctrl_reg := r2 }
    let w2 := [HwWrite.ctrl r2]
    let (s3, w3) := vctcxo_tamer_reset_counters s2 true
    let (s4, w4) := if mode ≠ 0 then vctcxo_tamer_reset_counters s3 false
                    else (s3, [])
    let (s5, w5) := if mode = VCTCXO_TAMER_1_PPS ∨ mode = VCTCXO_TAMER_10_MHZ
                    then vctcxo_tamer_enable_isr s4 true else (s4, [])
    (s5, w1 ++ w2 ++ w3 ++ w4 ++ w5)
  else
    (s, [])

/-- `struct vctcxo_tamer_pkt_buf` (declared in `vctcxo_tamer.h`, fields
exactly as used in `src/`): three signed 32-bit window errors, three
window-complete flags, one ready flag. -/
structure vctcxo_tamer_pkt_buf where
  pps_1s_error : ℤ
  pps_10s_error : ℤ
  pps_100s_error : ℤ
  pps_1s_error_flag : Bool
  pps_10s_error_flag : Bool
  pps_100s_error_flag : Bool
  ready : Bool
deriving DecidableEq, Repr

/-- The hardware register values consumed by one run of
`vctcxo_tamer_isr`: the three error counters (as assembled by
`vctcxo_tamer_read_count`) and the status byte. -/
structure IsrReadings where
  err1s : ℤ
  err10s : ℤ
  err100s : ℤ
  status : ℕ
deriving DecidableEq, Repr

/-- `vctcxo_tamer_isr` (`vctcxo_tamer.c` lines 146–176): disable
interrupts, assert counter reset, read the three counters and the status
byte, derive the window flags, pulse interrupt-clear, and publish the
sample with `ready = true`.  Every field of the packet buffer is
overwritten. -/
def vctcxo_tamer_isr (s : DriverState) (_pkt : vctcxo_tamer_pkt_buf)
    (r : IsrReadings) : DriverState × vctcxo_tamer_pkt_buf × List HwWrite :=
  let (s1, w1) := vctcxo_tamer_enable_isr s false
  let (s2, w2) := vctcxo_tamer_reset_counters s1 true
  let pkt1 : vctcxo_tamer_pkt_buf :=
    { pps_1s_error := r.err1s
      pps_10s_error := r.err10s
      pps_100s_error := r.err100s
      pps_1s_error_flag := r.status &&& VT_STAT_ERR_1S ≠ 0
      pps_10s_error_flag := r.status &&& VT_STAT_ERR_10S ≠ 0
      pps_100s_error_flag := r.status &&& VT_STAT_ERR_100S ≠ 0
      ready := true }
  let (s3, w3) := vctcxo_tamer_clear_isr s2
  (s3, pkt1, w1 ++ w2 ++ w3)

/-- `vctcxo_tamer_init` (`vctcxo_tamer.c` lines 179–183): zero the state
register, then select 1-PPS tune mode. -/
def vctcxo_tamer_init (s : DriverState) : DriverState × List HwWrite :=
  let (s1, w1) := vctcxo_tamer_set_tune_mode s VCTCXO_TAMER_1_PPS
  (s1, HwWrite.stateReg 0 :: w1)

/-- `vctcxo_tamer_dis` (`vctcxo_tamer.c` lines 186–191): select the
disabled tune mode, then zero the state register. -/
def vctcxo_tamer_dis (s : DriverState) : DriverState × List HwWrite :=
  let (s1, w1) := vctcxo_tamer_set_tune_mode s VCTCXO_TAMER_DISABLED
  (s1, w1 ++ [HwWrite.stateReg 0])

/-- `point_t` (declared in `vctcxo_tamer.h`, fields as used in `src/`):
`x` is a signed 32-bit error count, `y` a 16-bit trim-DAC code (spec §3:
each point is a (measured-error, trim-code) pair). -/
structure point_t where
  x : ℤ
  y : ℕ
deriving DecidableEq, Repr

/-- `line_t` (declared in `vctcxo_tamer.h`, fields as used in `src/`):
two points, a `float` slope (modelled over `ℚ`) and a 16-bit trim-code
y-intercept (spec §3: "a y-intercept (trim-code domain)"). -/
structure line_t where
  point0 : point_t
  point1 : point_t
  slope : ℚ
  y_intercept : ℕ
deriving DecidableEq, Repr

/-- `state_t` (declared in `vctcxo_tamer.h`): the four calibration
phases used by `main.c`. -/
inductive state_t where
  | COARSE_TUNE_MIN
  | COARSE_TUNE_MAX
  | COARSE_TUNE_DONE
  | FINE_TUNE
deriving DecidableEq, Repr

export state_t (COARSE_TUNE_MIN COARSE_TUNE_MAX COARSE_TUNE_DONE FINE_TUNE)

/-- `trimdac_min` (`main.c` line 98). -/
def trimdac_min : ℕ := 0x0000

/-- `trimdac_max` (`main.c` line 99). -/
def trimdac_max : ℕ := CONFIG_DAC_MAX

/-- `adjust_trim_dac` (`main.c` lines 66–84): compute
`new_value = cached_code - lroundf(error * slope) / scale` (C integer
division truncates toward zero), clamp to `[0, CONFIG_DAC_MAX]`, store
the result in the cache and write it to the DAC. -/
def adjust_trim_dac (s : DriverState) (error : ℤ) (slope : ℚ) (scale : ℤ) :
    DriverState × List HwWrite :=
  let new_value : ℤ :=
    (s.vctcxo_trim_dac_value : ℤ) - Int.tdiv (lroundQ ((error : ℚ) * slope)) scale
  let clamped : ℤ :=
    if new_value > (CONFIG_DAC_MAX : ℤ) then (CONFIG_DAC_MAX : ℤ)
    else if new_value < 0 then 0
    else new_value
  vctcxo_trim_dac_write { s with vctcxo_trim_dac_value := u16 clamped } (u16 clamped)

/-- The result of one dispatch of the calibration state machine: the
driver state, the calibration line, the next phase and the hardware
writes, in program order. -/
structure FsmResult where
  drv : DriverState
  line : line_t
  tune : state_t
  writes : List HwWrite
deriving DecidableEq, Repr

/-- The `switch (tune_state)` body of `main.c` (lines 161–275), acting on
one consumed sample `pkt`.  `COARSE_TUNE_DONE` stores the y-intercept
into a `uint16_t` field, so both the inner `(uint16_t)` cast of the
rounded product and the final store reduce modulo 2^16 (`u16`). -/
def fsmStep (drv : DriverState) (pkt : vctcxo_tamer_pkt_buf)
    (line : line_t) (ts : state_t) : FsmResult :=
  match ts with
  | COARSE_TUNE_MIN =>
    let (d1, wa) := vctcxo_trim_dac_write drv trimdac_min
    let (d2, wb) := vctcxo_tamer_reset_counters d1 true
    ⟨d2, line, COARSE_TUNE_MAX, wa ++ wb⟩
  | COARSE_TUNE_MAX =>
    let line1 := { line with point0 := { line.point0 with x := pkt.pps_1s_error } }
    let (d1, wa) := vctcxo_trim_dac_write drv trimdac_max
    let (d2, wb) := vctcxo_tamer_reset_counters d1 true
    ⟨d2, line1, COARSE_TUNE_DONE, wa ++ wb⟩
  | COARSE_TUNE_DONE =>
    let line1 := { line with point1 := { line.point1 with x := pkt.pps_1s_error } }
    let line2 :=
      if line1.point1.x - line1.point0.x ≠ (0 : ℤ) then
        let slope : ℚ :=
          ((line1.point1.y : ℚ) - (line1.point0.y : ℚ)) /
            ((line1.point1.x : ℚ) - (line1.point0.x : ℚ))
        { line1 with
          slope := slope
          y_intercept :=
            u16 ((line1.point0.y : ℤ) -
              (u16 (lroundQ (slope * (line1.point0.x : ℚ))) : ℤ)) }
      else
        { line1 with y_intercept := VCTCXO_DEFAULT_DAC_VALUE }
    let (d1, wb) := vctcxo_trim_dac_write drv line2.y_intercept
    ⟨d1, line2, FINE_TUNE, HwWrite.stateReg 0x01 :: wb⟩
  | FINE_TUNE =>
    if pkt.pps_1s_error_flag then
      let (d1, w) := adjust_trim_dac drv pkt.pps_1s_error line.slope 1
      ⟨d1, line, FINE_TUNE, w⟩
    else if pkt.pps_10s_error_flag then
      let (d1, w) := adjust_trim_dac drv pkt.pps_10s_error line.slope 10
      ⟨d1, line, FINE_TUNE, w⟩
    else if pkt.pps_100s_error_flag then
      let (d1, w) := adjust_trim_dac drv pkt.pps_100s_error line.slope 100
      ⟨d1, line, FINE_TUNE, w⟩
    else
      ⟨drv, line, FINE_TUNE, []⟩

/-- The state carried across iterations of the `main` loop (`main.c`
lines 106–121 and the loop body's mutable variables). -/
structure MainState where
  drv : DriverState
  pkt : vctcxo_tamer_pkt_buf
  trimdac_cal_line : line_t
  tune_state : state_t
  vctcxo_tamer_en : ℕ
deriving DecidableEq, Repr

/-- The hardware register values one `main`-loop iteration reads: the
enable-status byte (`vctcxo_tamer_status_read`), the tamer status byte
(`vctcxo_tamer_read(VT_STAT_ADDR)`), and the values the ISR would read
if dispatched. -/
structure LoopInputs where
  statusEnable : ℕ
  vtStat : ℕ
  isrReadings : IsrReadings
deriving DecidableEq, Repr

/-- The result of one iteration of the `main` loop: the next `MainState`
and the hardware writes of the iteration in program order. -/
structure LoopResult where
  st : MainState
  writes : List HwWrite
deriving DecidableEq, Repr

/-- The ISR-dispatch block of the loop (`main.c` lines 136–138): when the
tamer status byte is non-zero, run `vctcxo_tamer_isr`; result is the
driver state, the packet buffer and the writes after the block. -/
def loopIsr (st : MainState) (inp : LoopInputs) :
    DriverState × vctcxo_tamer_pkt_buf × List HwWrite :=
  if inp.vtStat ≠ 0 then vctcxo_tamer_isr st.drv st.pkt inp.isrReadings
  else (st.drv, st.pkt, [])

/-- The enable-edge block of the loop (`main.c` lines 141–154), acting on
the driver state `drv1` and packet buffer `pkt1` left by the ISR block:
on a rising edge run `vctcxo_tamer_init`, reset the phase and force the
mailbox ready; on a falling edge run `vctcxo_tamer_dis`, reset the phase
and clear the mailbox; otherwise leave everything as it was.  Result:
driver state, packet buffer, phase and writes after the block. -/
def loopEdge (st : MainState) (inp : LoopInputs) (drv1 : DriverState)
    (pkt1 : vctcxo_tamer_pkt_buf) :
    DriverState × vctcxo_tamer_pkt_buf × state_t × List HwWrite :=
  if st.vctcxo_tamer_en ≠ inp.statusEnable &&& 1 then
    if inp.statusEnable &&& 1 = 0x01 then
      ((vctcxo_tamer_init drv1).1, { pkt1 with ready := true },
       COARSE_TUNE_MIN, (vctcxo_tamer_init drv1).2)
    else
      ((vctcxo_tamer_dis drv1).1, { pkt1 with ready := false },
       COARSE_TUNE_MIN, (vctcxo_tamer_dis drv1).2)
  else (drv1, pkt1, st.tune_state, [])

/-- One iteration of the `while (1)` loop of `main` (`main.c` lines
129–283): sample the enable bit, dispatch the ISR when the status byte is
non-zero (`loopIsr`), handle enable edges (`loopEdge`), and when the
mailbox is ready consume it, run the state machine, release counter reset
and re-enable interrupts. -/
def loopIter (st : MainState) (inp : LoopInputs) : LoopResult :=
  let a := loopIsr st inp
  let b := loopEdge st inp a.1 a.2.1
  if b.2.1.ready then
    let pkt3 := { b.2.1 with ready := false }
    let r := fsmStep b.1 pkt3 st.trimdac_cal_line b.2.2.1
    let c := vctcxo_tamer_reset_counters r.drv false
    let d := vctcxo_tamer_enable_isr c.1 true
    ⟨{ drv := d.1, pkt := pkt3, trimdac_cal_line := r.line,
       tune_state := r.tune, vctcxo_tamer_en := inp.statusEnable &&& 1 },
     a.2.2 ++ b.2.2.2 ++ r.writes ++ c.2 ++ d.2⟩
  else
    ⟨{ drv := b.1, pkt := b.2.1, trimdac_cal_line := st.trimdac_cal_line,
       tune_state := b.2.2.1, vctcxo_tamer_en := inp.statusEnable &&& 1 },
     a.2.2 ++ b.2.2.2⟩

/-- The state after the initialisation code of `main` (`main.c` lines
106–124), given the power-up driver state: default calibration line,
phase `COARSE_TUNE_MIN`, mailbox not ready, enable history zero, and the
default DAC code written. -/
def mainInit (drv0 : DriverState) : MainState × List HwWrite :=
  let line0 : line_t :=
    { point0 := { x := 0, y := trimdac_min }
      point1 := { x := 0, y := trimdac_max }
      slope := 0
      y_intercept := 0 }
  let pkt0 : vctcxo_tamer_pkt_buf :=
    { pps_1s_error := 0, pps_10s_error := 0, pps_100s_error := 0
      pps_1s_error_flag := false, pps_10s_error_flag := false
      pps_100s_error_flag := false, ready := false }
  let (d1, w1) := vctcxo_trim_dac_write drv0 VCTCXO_DEFAULT_DAC_VALUE
  ({ drv := d1, pkt := pkt0, trimdac_cal_line := line0,
     tune_state := COARSE_TUNE_MIN, vctcxo_tamer_en := 0 }, w1)

/-- The successor function of the calibration phase order claimed by the
spec: CoarseMin → CoarseMax → CoarseDone → Fine → Fine → …. -/
def fsmNext : state_t → state_t
  | COARSE_TUNE_MIN => COARSE_TUNE_MAX
  | COARSE_TUNE_MAX => COARSE_TUNE_DONE
  | COARSE_TUNE_DONE => FINE_TUNE
  | FINE_TUNE => FINE_TUNE

/-- The phase in force when the loop iteration reaches the FSM dispatch
point: an enable edge (in either direction) has already reset it to
`COARSE_TUNE_MIN`, otherwise it is the phase carried over from the
previous iteration. -/
def phaseAtFsmEntry (st : MainState) (inp : LoopInputs) : state_t :=
  if st.vctcxo_tamer_en ≠ inp.statusEnable &&& 1 then COARSE_TUNE_MIN
  else st.tune_state

/-- Whether the iteration consumes a ready sample, i.e. the value of the
mailbox `ready` flag at the FSM dispatch point: forced `true` on a
disable→enable edge, forced `false` on an enable→disable edge, otherwise
set by an ISR dispatch or carried over. -/
def loopConsumes (st : MainState) (inp : LoopInputs) : Bool :=
  if st.vctcxo_tamer_en ≠ inp.statusEnable &&& 1 then
    decide (inp.statusEnable &&& 1 = 0x01)
  else if inp.vtStat ≠ 0 then true
  else st.pkt.ready

/-- What the spec says should happen to an out-of-range trim code
(spec §7): clamp into `[0, DacMax]`.  Stated from the spec's words, for
comparison with what the code computes. -/
def clampToDacRange (z : ℤ) : ℕ :=
  if z > (CONFIG_DAC_MAX : ℤ) then CONFIG_DAC_MAX
  else if z < 0 then 0
  else z.toNat

/-- A concrete fine-phase loop state (enable high, a ready sample with no
window-complete flag, calibrated line), used as a concrete input for the
frame-effect property. -/
def fineIdleState : MainState :=
  ⟨⟨0x41, 43690⟩, ⟨5, 7, 9, false, false, false, true⟩,
   ⟨⟨100, 0⟩, ⟨-50, 65535⟩, 0, 43690⟩, FINE_TUNE, 1⟩

/-- A concrete loop input: enable bit high, no pending tamer status. -/
def idleInput : LoopInputs := ⟨1, 0, ⟨0, 0, 0, 0⟩⟩

/-! ## Sanity checks against the source and the spec's example scenarios -/

example :
    vctcxo_tamer_reset_counters ⟨0, 0⟩ true = (⟨1, 0⟩, [HwWrite.ctrl 1]) := by
  decide

example :
    vctcxo_tamer_set_tune_mode ⟨0, 0⟩ 1 =
      (⟨0x42, 0⟩, [HwWrite.ctrl 0, HwWrite.ctrl 0x40, HwWrite.ctrl 0x41,
                   HwWrite.ctrl 0x40, HwWrite.ctrl 0x42]) := by
  decide

example : vctcxo_tamer_set_tune_mode ⟨0x42, 7⟩ 5 = (⟨0x42, 7⟩, []) := by
  decide

example : lroundQ (5/2 : ℚ) = 3 := by norm_num [lroundQ]

example : lroundQ (-5/2 : ℚ) = -3 := by norm_num [lroundQ]

example : lroundQ (-43690 : ℚ) = -43690 := by norm_num [lroundQ]

example : u16 (-65535) = 1 := by decide

/-- Spec §8 example scenario 3: `point0 = (100, 0)`, second coarse sample
`-50` → slope `-436.9`, DAC written `43690`. -/
example :
    (fsmStep ⟨0x41, 65535⟩ ⟨-50, 0, 0, false, false, false, false⟩
        ⟨⟨100, 0⟩, ⟨0, 65535⟩, 0, 0⟩ COARSE_TUNE_DONE).line.y_intercept =
      43690 := by
  norm_num [fsmStep, vctcxo_trim_dac_write, u16, lroundQ]
  decide

/-- Spec §8 example scenario 4: fine-phase short-window error `10` at
trim code `43690` with slope `-436.9` → DAC written `48059`. -/
example :
    (fsmStep ⟨0x41, 43690⟩ ⟨10, 0, 0, true, false, false, false⟩
        ⟨⟨100, 0⟩, ⟨-50, 65535⟩, -4369/10, 43690⟩ FINE_TUNE).drv.vctcxo_trim_dac_value =
      48059 := by
  norm_num [fsmStep, adjust_trim_dac, vctcxo_trim_dac_write, u16, lroundQ,
    CONFIG_DAC_MAX]
  decide

/-! ## Claim theorems -/

/-- Claim C5: producing twice into the mailbox with no intervening
consumption leaves exactly the second invocation's error counts and
flags visible (the first sample is entirely overwritten), with
`ready = true`. -/
theorem isr_mailbox_overwrite (drv : DriverState) (pkt : vctcxo_tamer_pkt_buf)
    (r1 r2 : IsrReadings) :
    (vctcxo_tamer_isr (vctcxo_tamer_isr drv pkt r1).1
        (vctcxo_tamer_isr drv pkt r1).2.1 r2).2.1 =
      { pps_1s_error := r2.err1s
        pps_10s_error := r2.err10s
        pps_100s_error := r2.err100s
        pps_1s_error_flag := r2.status &&& VT_STAT_ERR_1S ≠ 0
        pps_10s_error_flag := r2.status &&& VT_STAT_ERR_10S ≠ 0
        pps_100s_error_flag := r2.status &&& VT_STAT_ERR_100S ≠ 0
        ready := true } := by
  rfl

/-- Claim C7: for a mode value outside {Disabled, 1‑PPS, 10 MHz},
`vctcxo_tamer_set_tune_mode` is a no-op: no hardware write is issued and
the driver state (control-register cache and trim-DAC cache) is
unchanged. -/
theorem set_tune_mode_invalid_noop (s : DriverState) (mode : ℕ)
    (h : mode ≠ VCTCXO_TAMER_DISABLED ∧ mode ≠ VCTCXO_TAMER_1_PPS ∧
      mode ≠ VCTCXO_TAMER_10_MHZ) :
    vctcxo_tamer_set_tune_mode s mode = (s, []) := by
  rw [vctcxo_tamer_set_tune_mode, if_neg]
  push_neg
  exact h

/-- Witness for C7 at `mode = 3`. -/
theorem set_tune_mode_invalid_noop_witness :
    ((3 : ℕ) ≠ VCTCXO_TAMER_DISABLED ∧ (3 : ℕ) ≠ VCTCXO_TAMER_1_PPS ∧
      (3 : ℕ) ≠ VCTCXO_TAMER_10_MHZ) ∧
    vctcxo_tamer_set_tune_mode ⟨0x42, 7⟩ 3 = (⟨0x42, 7⟩, []) :=
  ⟨by decide, set_tune_mode_invalid_noop ⟨0x42, 7⟩ 3 (by decide)⟩

/-- Counterexample to claim C9: after `vctcxo_tamer_clear_isr` on a state
whose cached control byte is 0, the byte written to hardware is 4 (the
interrupt-clear pulse) while the cache still reads 0 — so the cache does
not equal the byte last written, and no read-modify-write of the cache
happened. -/
theorem clear_isr_cache_cex :
    (vctcxo_tamer_clear_isr ⟨0, 30714⟩).2 = [HwWrite.ctrl 4] ∧
    (vctcxo_tamer_clear_isr ⟨0, 30714⟩).1.vctcxo_tamer_ctrl_reg = 0 ∧
    (0 : ℕ) ≠ 4 := by
  decide

/-- Claim C9 (amended): `vctcxo_tamer_reset_counters` and
`vctcxo_tamer_enable_isr` each read-modify-write the cached control
bit-field and re-emit the full byte, after which the cache equals the
byte last written; `vctcxo_tamer_clear_isr`, however, writes the cached
byte with the interrupt-clear bit OR-ed in while leaving the cache
itself untouched, so after it the byte last written is the cache plus
the clear bit (they differ whenever that bit was not already cached). -/
theorem ctrl_rmw_cache_coherence (s : DriverState) (b : Bool) :
    ((vctcxo_tamer_reset_counters s b).1.vctcxo_tamer_ctrl_reg =
        (if b then s.vctcxo_tamer_ctrl_reg ||| VT_CTRL_RESET
         else s.vctcxo_tamer_ctrl_reg &&& (255 ^^^ VT_CTRL_RESET)) ∧
      (vctcxo_tamer_reset_counters s b).2 =
        [HwWrite.ctrl (vctcxo_tamer_reset_counters s b).1.vctcxo_tamer_ctrl_reg]) ∧
    ((vctcxo_tamer_enable_isr s b).1.vctcxo_tamer_ctrl_reg =
        (if b then s.vctcxo_tamer_ctrl_reg ||| VT_CTRL_IRQ_EN
         else s.vctcxo_tamer_ctrl_reg &&& (255 ^^^ VT_CTRL_IRQ_EN)) ∧
      (vctcxo_tamer_enable_isr s b).2 =
        [HwWrite.ctrl (vctcxo_tamer_enable_isr s b).1.vctcxo_tamer_ctrl_reg]) ∧
    (vctcxo_tamer_clear_isr s).1 = s ∧
    (vctcxo_tamer_clear_isr s).2 =
      [HwWrite.ctrl (s.vctcxo_tamer_ctrl_reg ||| VT_CTRL_IRQ_CLR)] := by
  refine ⟨⟨?_, rfl⟩, ⟨?_, rfl⟩, rfl, rfl⟩ <;> cases b <;> rfl

/-- Claim C3: `adjust_trim_dac` computes
`new_code = cached_code - round(e * slope) / scale` (C truncating integer
division applied after rounding the product), clamps the result into
`[0, CONFIG_DAC_MAX]`, updates the trim-DAC cache with it and writes its
two bytes to the DAC; the resulting code never exceeds
`CONFIG_DAC_MAX`. -/
theorem adjust_trim_dac_clamps (s : DriverState) (e : ℤ) (slope : ℚ)
    (scale : ℤ) (_hscale : scale = 1 ∨ scale = 10 ∨ scale = 100) :
    adjust_trim_dac s e slope scale =
      ({ s with vctcxo_trim_dac_value :=
           clampToDacRange ((s.vctcxo_trim_dac_value : ℤ) -
             Int.tdiv (lroundQ ((e : ℚ) * slope)) scale) },
       [HwWrite.dacLo (clampToDacRange ((s.vctcxo_trim_dac_value : ℤ) -
           Int.tdiv (lroundQ ((e : ℚ) * slope)) scale) &&& 0x00FF),
        HwWrite.dacHi ((clampToDacRange ((s.vctcxo_trim_dac_value : ℤ) -
           Int.tdiv (lroundQ ((e : ℚ) * slope)) scale) &&& 0xFF00) >>> 8)]) ∧
    (adjust_trim_dac s e slope scale).1.vctcxo_trim_dac_value ≤
      CONFIG_DAC_MAX := by
  have hu : ∀ z : ℤ,
      u16 (if z > (CONFIG_DAC_MAX : ℤ) then (CONFIG_DAC_MAX : ℤ)
           else if z < 0 then 0 else z) = clampToDacRange z := by
    intro z
    unfold u16 clampToDacRange CONFIG_DAC_MAX
    split
    · decide
    · split
      · decide
      · have h0 : (0 : ℤ) ≤ z := by omega
        rw [Int.emod_eq_of_lt h0 (by omega)]
  constructor
  · simp only [adjust_trim_dac, vctcxo_trim_dac_write, hu]
  · simp only [adjust_trim_dac, vctcxo_trim_dac_write, hu]
    unfold clampToDacRange CONFIG_DAC_MAX
    split
    · decide
    · split
      · decide
      · omega

/-- Witness for C3: spec §8 scenario 4's fine-phase correction
(error 10, slope −436.9, scale 1 at trim code 43690). -/
theorem adjust_trim_dac_clamps_witness :
    ((1 : ℤ) = 1 ∨ (1 : ℤ) = 10 ∨ (1 : ℤ) = 100) ∧
    (adjust_trim_dac ⟨0x41, 43690⟩ 10 (-4369/10) 1 =
      ({ vctcxo_tamer_ctrl_reg := 0x41,
         vctcxo_trim_dac_value :=
           clampToDacRange ((43690 : ℤ) -
             Int.tdiv (lroundQ ((10 : ℚ) * (-4369/10))) 1) },
       [HwWrite.dacLo (clampToDacRange ((43690 : ℤ) -
           Int.tdiv (lroundQ ((10 : ℚ) * (-4369/10))) 1) &&& 0x00FF),
        HwWrite.dacHi ((clampToDacRange ((43690 : ℤ) -
           Int.tdiv (lroundQ ((10 : ℚ) * (-4369/10))) 1) &&& 0xFF00) >>> 8)]) ∧
     (adjust_trim_dac ⟨0x41, 43690⟩ 10 (-4369/10) 1).1.vctcxo_trim_dac_value ≤
       CONFIG_DAC_MAX) :=
  ⟨by decide, adjust_trim_dac_clamps ⟨0x41, 43690⟩ 10 (-4369/10) 1 (by decide)⟩

/-- Counterexample to claim C1 as stated: with recorded points
`point0 = (x 1, y 0)` and `point1 = (x 2, y 65535)` the denominator is 1
and the slope is 65535, so the claimed
`y_intercept = point0.y - round(slope * point0.x)` is `-65535`; the code
instead stores the `uint16_t` value 1 (wraparound, not the claimed
integer value). -/
theorem coarse_done_intercept_cex :
    (fsmStep ⟨0x41, 30714⟩ ⟨2, 0, 0, false, false, false, false⟩
        ⟨⟨1, 0⟩, ⟨0, 65535⟩, 0, 0⟩ COARSE_TUNE_DONE).line.y_intercept = 1 ∧
    (((65535 : ℚ) - 0) / ((2 : ℚ) - 1) = 65535) ∧
    ((0 : ℤ) - lroundQ ((65535 : ℚ) * 1) = -65535) ∧
    ((1 : ℤ) ≠ -65535) := by
  refine ⟨?_, by norm_num, by norm_num [lroundQ], by decide⟩
  norm_num [fsmStep, vctcxo_trim_dac_write, u16, lroundQ]

/-- Claim C1 (amended): in the `COARSE_TUNE_DONE` step, with
`point1.x` freshly recorded from the sample: if `point1.x - point0.x ≠ 0`
then `slope = (point1.y - point0.y) / (point1.x - point0.x)` (exact
division) and `y_intercept` is `point0.y - round(slope * point0.x)`
converted to `uint16_t`, i.e. reduced modulo 2^16 (the rounded product is
itself first truncated to `uint16_t`); if the denominator is 0 the slope
is left untouched and `y_intercept` is the fixed default trim code
`0x77FA`, regardless of the points' y-values. -/
theorem coarse_done_line_computation (drv : DriverState)
    (pkt : vctcxo_tamer_pkt_buf) (line : line_t) :
    (fsmStep drv pkt line COARSE_TUNE_DONE).line.point1.x =
      pkt.pps_1s_error ∧
    (fsmStep drv pkt line COARSE_TUNE_DONE).line.slope =
      (if pkt.pps_1s_error - line.point0.x ≠ (0 : ℤ) then
        ((line.point1.y : ℚ) - (line.point0.y : ℚ)) /
          ((pkt.pps_1s_error : ℚ) - (line.point0.x : ℚ))
      else line.slope) ∧
    (fsmStep drv pkt line COARSE_TUNE_DONE).line.y_intercept =
      (if pkt.pps_1s_error - line.point0.x ≠ (0 : ℤ) then
        u16 ((line.point0.y : ℤ) -
          (u16 (lroundQ ((((line.point1.y : ℚ) - (line.point0.y : ℚ)) /
              ((pkt.pps_1s_error : ℚ) - (line.point0.x : ℚ))) *
            (line.point0.x : ℚ))) : ℤ))
      else VCTCXO_DEFAULT_DAC_VALUE) := by
  refine ⟨?_, ?_, ?_⟩ <;>
    simp only [fsmStep, vctcxo_trim_dac_write] <;> split <;> rfl

/-- Counterexample to claim C2 as stated: with the same points as the C1
counterexample the computed intercept `point0.y - round(slope * point0.x)`
is `-65535`; clamping it into `[0, DacMax]` (what the claim says happens)
gives 0, but the code writes trim code 1 to the DAC — the written value
results from `uint16_t` wraparound, not from clamping. -/
theorem coarse_done_clamp_cex :
    (fsmStep ⟨0x41, 30714⟩ ⟨2, 0, 0, false, false, false, false⟩
        ⟨⟨1, 0⟩, ⟨0, 65535⟩, 0, 0⟩ COARSE_TUNE_DONE).drv.vctcxo_trim_dac_value
      = 1 ∧
    (fsmStep ⟨0x41, 30714⟩ ⟨2, 0, 0, false, false, false, false⟩
        ⟨⟨1, 0⟩, ⟨0, 65535⟩, 0, 0⟩ COARSE_TUNE_DONE).writes =
      [HwWrite.stateReg 1, HwWrite.dacLo 1, HwWrite.dacHi 0] ∧
    clampToDacRange ((0 : ℤ) - lroundQ ((65535 : ℚ) * 1)) = 0 ∧
    (1 : ℕ) ≠ 0 := by
  refine ⟨?_, ?_, by norm_num [clampToDacRange, lroundQ, CONFIG_DAC_MAX],
    by decide⟩ <;>
    norm_num [fsmStep, vctcxo_trim_dac_write, u16, lroundQ]

/-- Claim C2 (amended): the `COARSE_TUNE_DONE` y-intercept is a
`uint16_t` (reduced modulo 2^16), so the code written to the DAC always
lies in `[0, CONFIG_DAC_MAX]` (with `DacMax = 0xFFFF`) and is exactly the
two-byte split of the stored `y_intercept`; but it is not clamped — an
out-of-range intercept wraps around (see the counterexample). -/
theorem coarse_done_write_in_range (drv : DriverState)
    (pkt : vctcxo_tamer_pkt_buf) (line : line_t) :
    (fsmStep drv pkt line COARSE_TUNE_DONE).line.y_intercept ≤
      CONFIG_DAC_MAX ∧
    (fsmStep drv pkt line COARSE_TUNE_DONE).drv.vctcxo_trim_dac_value =
      (fsmStep drv pkt line COARSE_TUNE_DONE).line.y_intercept ∧
    (fsmStep drv pkt line COARSE_TUNE_DONE).writes =
      [HwWrite.stateReg 0x01,
       HwWrite.dacLo
         ((fsmStep drv pkt line COARSE_TUNE_DONE).line.y_intercept &&& 0x00FF),
       HwWrite.dacHi
         (((fsmStep drv pkt line COARSE_TUNE_DONE).line.y_intercept &&&
           0xFF00) >>> 8)] := by
  have hu : ∀ z : ℤ, u16 z ≤ CONFIG_DAC_MAX := by
    intro z
    unfold u16 CONFIG_DAC_MAX
    omega
  refine ⟨?_, ?_, ?_⟩
  · simp only [fsmStep, vctcxo_trim_dac_write]
    split
    · exact hu _
    · show VCTCXO_DEFAULT_DAC_VALUE ≤ CONFIG_DAC_MAX
      decide
  · simp only [fsmStep, vctcxo_trim_dac_write]
  · simp only [fsmStep, vctcxo_trim_dac_write]

/-- Claim C8: for a valid mode, `vctcxo_tamer_set_tune_mode` emits, in
order: the control byte with interrupt-enable cleared; the byte with the
2-bit tune-mode field (bits 6–7) replaced by the mode; the byte with
counter reset asserted; then the byte with reset released exactly when
the mode is not Disabled; and finally the byte with interrupt-enable set
exactly when the mode is 1-PPS or 10 MHz.  The cache ends at the last
byte written. -/
theorem set_tune_mode_valid_sequence (s : DriverState) (mode : ℕ)
    (h : mode = VCTCXO_TAMER_DISABLED ∨ mode = VCTCXO_TAMER_1_PPS ∨
      mode = VCTCXO_TAMER_10_MHZ) :
    vctcxo_tamer_set_tune_mode s mode =
      (let c0 := s.vctcxo_tamer_ctrl_reg &&& (255 ^^^ VT_CTRL_IRQ_EN)
       let c1 := ((c0 &&& (255 ^^^ VT_CTRL_TUNE_MODE)) |||
                  ((mode % 256) <<< 6)) % 256
       let c2 := c1 ||| VT_CTRL_RESET
       let c3 := c2 &&& (255 ^^^ VT_CTRL_RESET)
       let c4 := c3 ||| VT_CTRL_IRQ_EN
       ({ s with vctcxo_tamer_ctrl_reg :=
            if mode = VCTCXO_TAMER_DISABLED then c2 else c4 },
        [HwWrite.ctrl c0, HwWrite.ctrl c1, HwWrite.ctrl c2] ++
        (if mode ≠ VCTCXO_TAMER_DISABLED then [HwWrite.ctrl c3] else []) ++
        (if mode = VCTCXO_TAMER_1_PPS ∨ mode = VCTCXO_TAMER_10_MHZ
         then [HwWrite.ctrl c4] else []))) := by
  rcases h with h | h | h <;> subst h <;> rfl

/-- Witness for C8 at `mode = VCTCXO_TAMER_1_PPS` on a zeroed driver
state. -/
theorem set_tune_mode_valid_sequence_witness :
    ((1 : ℕ) = VCTCXO_TAMER_DISABLED ∨ (1 : ℕ) = VCTCXO_TAMER_1_PPS ∨
      (1 : ℕ) = VCTCXO_TAMER_10_MHZ) ∧
    vctcxo_tamer_set_tune_mode ⟨0, 0⟩ 1 =
      (let c0 := (0 : ℕ) &&& (255 ^^^ VT_CTRL_IRQ_EN)
       let c1 := ((c0 &&& (255 ^^^ VT_CTRL_TUNE_MODE)) |||
                  (((1 : ℕ) % 256) <<< 6)) % 256
       let c2 := c1 ||| VT_CTRL_RESET
       let c3 := c2 &&& (255 ^^^ VT_CTRL_RESET)
       let c4 := c3 ||| VT_CTRL_IRQ_EN
       ({ vctcxo_tamer_ctrl_reg :=
            if (1 : ℕ) = VCTCXO_TAMER_DISABLED then c2 else c4,
          vctcxo_trim_dac_value := 0 },
        [HwWrite.ctrl c0, HwWrite.ctrl c1, HwWrite.ctrl c2] ++
        (if (1 : ℕ) ≠ VCTCXO_TAMER_DISABLED then [HwWrite.ctrl c3] else []) ++
        (if (1 : ℕ) = VCTCXO_TAMER_1_PPS ∨ (1 : ℕ) = VCTCXO_TAMER_10_MHZ
         then [HwWrite.ctrl c4] else []))) :=
  ⟨by decide, set_tune_mode_valid_sequence ⟨0, 0⟩ 1 (by decide)⟩

/-- Dispatching the state machine advances the phase by `fsmNext`,
whatever the sample and line contents. -/
theorem fsmStep_tune (drv : DriverState) (pkt : vctcxo_tamer_pkt_buf)
    (line : line_t) (ts : state_t) :
    (fsmStep drv pkt line ts).tune = fsmNext ts := by
  cases ts <;> simp only [fsmStep, fsmNext] <;> (repeat' split) <;> rfl

/-- The enable-edge block leaves the phase at `phaseAtFsmEntry`. -/
theorem loopEdge_tune (st : MainState) (inp : LoopInputs)
    (drv1 : DriverState) (pkt1 : vctcxo_tamer_pkt_buf) :
    (loopEdge st inp drv1 pkt1).2.2.1 = phaseAtFsmEntry st inp := by
  unfold loopEdge phaseAtFsmEntry
  split
  · split <;> rfl
  · rfl

/-- The mailbox `ready` flag at the FSM dispatch point is
`loopConsumes`. -/
theorem loopConsumes_eq (st : MainState) (inp : LoopInputs) :
    loopConsumes st inp =
      (loopEdge st inp (loopIsr st inp).1 (loopIsr st inp).2.1).2.1.ready := by
  unfold loopConsumes loopEdge loopIsr
  split
  · split
    · simp [*]
    · rename_i h1
      simp at h1 ⊢
      omega
  · split
    · simp [vctcxo_tamer_isr]
    · rfl

/-- Claim C4: the phase variable follows the order
CoarseMin → CoarseMax → CoarseDone → Fine → Fine → … (`fsmNext`); within
one loop iteration the phase first becomes `COARSE_TUNE_MIN` if an enable
edge (in either direction) was observed (`phaseAtFsmEntry`), and then
advances by exactly one `fsmNext` step if and only if a ready sample is
consumed (`loopConsumes`). -/
theorem loop_phase_evolution :
    (fsmNext COARSE_TUNE_MIN = COARSE_TUNE_MAX ∧
     fsmNext COARSE_TUNE_MAX = COARSE_TUNE_DONE ∧
     fsmNext COARSE_TUNE_DONE = FINE_TUNE ∧
     fsmNext FINE_TUNE = FINE_TUNE) ∧
    ∀ (st : MainState) (inp : LoopInputs),
      (loopIter st inp).st.tune_state =
        (if loopConsumes st inp then fsmNext (phaseAtFsmEntry st inp)
         else phaseAtFsmEntry st inp) := by
  refine ⟨⟨rfl, rfl, rfl, rfl⟩, ?_⟩
  intro st inp
  rw [loopConsumes_eq st inp]
  unfold loopIter
  split
  · rename_i h
    simp only [fsmStep_tune, loopEdge_tune, h, if_true]
  · rename_i h
    simp [loopEdge_tune, h]

/-- Claim C6: in the `FINE_TUNE` phase, when at least one window-complete
flag is set, exactly one proportional correction is applied — the one
selected in strict priority order short (scale 1) > medium (scale 10) >
long (scale 100) — and the step is exactly that single `adjust_trim_dac`
call (its DAC write is the only hardware write of the step). -/
theorem fine_tune_priority (drv : DriverState) (line : line_t)
    (pkt : vctcxo_tamer_pkt_buf)
    (h : pkt.pps_1s_error_flag = true ∨ pkt.pps_10s_error_flag = true ∨
      pkt.pps_100s_error_flag = true) :
    fsmStep drv pkt line FINE_TUNE =
      { drv := (adjust_trim_dac drv
          (if pkt.pps_1s_error_flag then pkt.pps_1s_error
           else if pkt.pps_10s_error_flag then pkt.pps_10s_error
           else pkt.pps_100s_error) line.slope
          (if pkt.pps_1s_error_flag then 1
           else if pkt.pps_10s_error_flag then 10 else 100)).1,
        line := line,
        tune := FINE_TUNE,
        writes := (adjust_trim_dac drv
          (if pkt.pps_1s_error_flag then pkt.pps_1s_error
           else if pkt.pps_10s_error_flag then pkt.pps_10s_error
           else pkt.pps_100s_error) line.slope
          (if pkt.pps_1s_error_flag then 1
           else if pkt.pps_10s_error_flag then 10 else 100)).2 } := by
  cases h1 : pkt.pps_1s_error_flag <;> cases h2 : pkt.pps_10s_error_flag <;>
    cases h3 : pkt.pps_100s_error_flag <;>
      simp_all [fsmStep]

/-- Witness for C6: a sample with only the short-window flag set. -/
theorem fine_tune_priority_witness :
    ((⟨10, 20, 30, true, false, false, false⟩ :
        vctcxo_tamer_pkt_buf).pps_1s_error_flag = true ∨
      (⟨10, 20, 30, true, false, false, false⟩ :
        vctcxo_tamer_pkt_buf).pps_10s_error_flag = true ∨
      (⟨10, 20, 30, true, false, false, false⟩ :
        vctcxo_tamer_pkt_buf).pps_100s_error_flag = true) ∧
    fsmStep ⟨0x41, 43690⟩ ⟨10, 20, 30, true, false, false, false⟩
        ⟨⟨100, 0⟩, ⟨-50, 65535⟩, -4369/10, 43690⟩ FINE_TUNE =
      { drv := (adjust_trim_dac ⟨0x41, 43690⟩
          (if (⟨10, 20, 30, true, false, false, false⟩ :
              vctcxo_tamer_pkt_buf).pps_1s_error_flag then 10
           else if (⟨10, 20, 30, true, false, false, false⟩ :
              vctcxo_tamer_pkt_buf).pps_10s_error_flag then 20
           else 30) (-4369/10)
          (if (⟨10, 20, 30, true, false, false, false⟩ :
              vctcxo_tamer_pkt_buf).pps_1s_error_flag then 1
           else if (⟨10, 20, 30, true, false, false, false⟩ :
              vctcxo_tamer_pkt_buf).pps_10s_error_flag then 10 else 100)).1,
        line := ⟨⟨100, 0⟩, ⟨-50, 65535⟩, -4369/10, 43690⟩,
        tune := FINE_TUNE,
        writes := (adjust_trim_dac ⟨0x41, 43690⟩
          (if (⟨10, 20, 30, true, false, false, false⟩ :
              vctcxo_tamer_pkt_buf).pps_1s_error_flag then 10
           else if (⟨10, 20, 30, true, false, false, false⟩ :
              vctcxo_tamer_pkt_buf).pps_10s_error_flag then 20
           else 30) (-4369/10)
          (if (⟨10, 20, 30, true, false, false, false⟩ :
              vctcxo_tamer_pkt_buf).pps_1s_error_flag then 1
           else if (⟨10, 20, 30, true, false, false, false⟩ :
              vctcxo_tamer_pkt_buf).pps_10s_error_flag then 10 else 100)).2 } :=
  ⟨Or.inl rfl,
    fine_tune_priority ⟨0x41, 43690⟩ ⟨⟨100, 0⟩, ⟨-50, 65535⟩, -4369/10, 43690⟩
      ⟨10, 20, 30, true, false, false, false⟩ (Or.inl rfl)⟩

/-- Claim C10: in the `FINE_TUNE` phase, consuming a sample with no
window-complete flag set writes nothing to the DAC and leaves the
trim-DAC cache and the calibration line unchanged; the phase stays
`FINE_TUNE`, and the iteration's only hardware writes are the trailing
control-register writes that release the counter reset and re-enable
interrupt signaling (which also end up in the control cache). -/
theorem fine_tune_no_flag_frame (st : MainState) (inp : LoopInputs)
    (hphase : st.tune_state = FINE_TUNE)
    (hen : st.vctcxo_tamer_en = inp.statusEnable &&& 1)
    (hstat : inp.vtStat = 0)
    (hready : st.pkt.ready = true)
    (h1 : st.pkt.pps_1s_error_flag = false)
    (h2 : st.pkt.pps_10s_error_flag = false)
    (h3 : st.pkt.pps_100s_error_flag = false) :
    (loopIter st inp).st.tune_state = FINE_TUNE ∧
    (loopIter st inp).st.drv.vctcxo_trim_dac_value =
      st.drv.vctcxo_trim_dac_value ∧
    (loopIter st inp).st.trimdac_cal_line = st.trimdac_cal_line ∧
    (loopIter st inp).writes =
      [HwWrite.ctrl (st.drv.vctcxo_tamer_ctrl_reg &&& (255 ^^^ VT_CTRL_RESET)),
       HwWrite.ctrl ((st.drv.vctcxo_tamer_ctrl_reg &&& (255 ^^^ VT_CTRL_RESET))
         ||| VT_CTRL_IRQ_EN)] ∧
    (loopIter st inp).st.drv.vctcxo_tamer_ctrl_reg =
      (st.drv.vctcxo_tamer_ctrl_reg &&& (255 ^^^ VT_CTRL_RESET)) |||
        VT_CTRL_IRQ_EN := by
  have hb : loopEdge st inp (loopIsr st inp).1 (loopIsr st inp).2.1 =
      (st.drv, st.pkt, st.tune_state, []) := by
    unfold loopEdge loopIsr
    rw [if_neg (by simp [hen]), if_neg (by simp [hstat])]
  simp only [loopIter]
  rw [hb]
  refine ⟨?_, ?_, ?_, ?_, ?_⟩ <;>
    simp [fsmStep, hphase, hready, h1, h2, h3, loopIsr, hstat,
      vctcxo_tamer_reset_counters, vctcxo_tamer_enable_isr]

/-- Witness for C10 on `fineIdleState`/`idleInput`. -/
theorem fine_tune_no_flag_frame_witness :
    (fineIdleState.tune_state = FINE_TUNE ∧
     fineIdleState.vctcxo_tamer_en = idleInput.statusEnable &&& 1 ∧
     idleInput.vtStat = 0 ∧
     fineIdleState.pkt.ready = true ∧
     fineIdleState.pkt.pps_1s_error_flag = false ∧
     fineIdleState.pkt.pps_10s_error_flag = false ∧
     fineIdleState.pkt.pps_100s_error_flag = false) ∧
    ((loopIter fineIdleState idleInput).st.tune_state = FINE_TUNE ∧
     (loopIter fineIdleState idleInput).st.drv.vctcxo_trim_dac_value =
       fineIdleState.drv.vctcxo_trim_dac_value ∧
     (loopIter fineIdleState idleInput).st.trimdac_cal_line =
       fineIdleState.trimdac_cal_line ∧
     (loopIter fineIdleState idleInput).writes =
       [HwWrite.ctrl (fineIdleState.drv.vctcxo_tamer_ctrl_reg &&&
          (255 ^^^ VT_CTRL_RESET)),
        HwWrite.ctrl ((fineIdleState.drv.vctcxo_tamer_ctrl_reg &&&
          (255 ^^^ VT_CTRL_RESET)) ||| VT_CTRL_IRQ_EN)] ∧
     (loopIter fineIdleState idleInput).st.drv.vctcxo_tamer_ctrl_reg =
       (fineIdleState.drv.vctcxo_tamer_ctrl_reg &&& (255 ^^^ VT_CTRL_RESET)) |||
         VT_CTRL_IRQ_EN) :=
  ⟨⟨rfl, by decide, rfl, rfl, rfl, rfl, rfl⟩,
   fine_tune_no_flag_frame fineIdleState idleInput rfl (by decide) rfl rfl
     rfl rfl rfl⟩
